import Mathlib

/-!
# Vuforia `EyewearUserCalibrator`: the consistency grade and the calibrator contract

The repository ships one source file, `sdk/include/Vuforia/EyewearUserCalibrator.h`.
It declares the enumeration `CONSISTENCY` with explicit enumerator values and an
abstract class whose member functions are all pure virtual (`= 0`).

* Part 1 embeds the enumeration exactly as the header declares it.
* Part 2 models the calibrator contract (session state, `init`, the two fit entry
  points).  The header has no bodies for these, so every definition of part 2 is
  marked as modelled from the specification and keeps the numeric solver, the
  default calibration and the consistency policy as parameters.
-/

namespace Vuforia
namespace EyewearUserCalibrator

/-! ## Part 1: `enum CONSISTENCY` (EyewearUserCalibrator.h, lines 57-81) -/

/-- The enumerators of `enum CONSISTENCY`, in declaration order.  The header declares
six of them: the five grades and the trailing `CONSISTENCY_LEN`. -/
inductive CONSISTENCY where
  | NONE
  | VERY_BAD
  | BAD
  | OK
  | GOOD
  | CONSISTENCY_LEN
  deriving DecidableEq, Repr

/-- The integer value the header assigns to each enumerator
(`NONE = 0, VERY_BAD = 1, BAD = 2, OK = 3, GOOD = 4, CONSISTENCY_LEN = 5`).
An unscoped C++ enumerator converts to `int`, hence `Int`. -/
def CONSISTENCY.value : CONSISTENCY → Int
  | .NONE => 0
  | .VERY_BAD => 1
  | .BAD => 2
  | .OK => 3
  | .GOOD => 4
  | .CONSISTENCY_LEN => 5

/-- Every enumerator the header declares, in declaration order. -/
def CONSISTENCY.enumerators : List CONSISTENCY :=
  [.NONE, .VERY_BAD, .BAD, .OK, .GOOD, .CONSISTENCY_LEN]

/-- The specification's ConsistencyGrade: the five grades, listed in the order the
specification states (`NONE < VERY_BAD < BAD < OK < GOOD`).  This definition follows
the specification's words; it is compared with `CONSISTENCY.value` below. -/
def specGrades : List CONSISTENCY :=
  [.NONE, .VERY_BAD, .BAD, .OK, .GOOD]

/-- Position of an enumerator in the specification's order of grades
(`specGrades.length` for an enumerator that is not a grade). -/
def specRank (c : CONSISTENCY) : Nat :=
  specGrades.indexOf c

/-- The specification's strict order on grades: earlier in `specGrades`. -/
def specLt (a b : CONSISTENCY) : Prop :=
  specRank a < specRank b

instance (a b : CONSISTENCY) : Decidable (specLt a b) :=
  inferInstanceAs (Decidable (specRank a < specRank b))

/-- Comparison of two enumerators by their integer value, as C++ `a < b` does. -/
def CONSISTENCY.ltByValue (a b : CONSISTENCY) : Bool :=
  decide (a.value < b.value)

/-- Lookup in a table indexed by grade value, as `table[g]` does for an array of
`CONSISTENCY_LEN` entries; `none` stands for an access outside the table. -/
def tableLookup {α : Type} (table : List α) (g : CONSISTENCY) : Option α :=
  if 0 ≤ g.value then table.get? g.value.toNat else none

/-! ## Part 2: the calibrator contract

`EyewearUserCalibrator` is an abstract class: `init`, `getProjectionMatrix` and
`getProjectionMatrices` are declared `= 0` and the repository holds no body for them.
The definitions below are therefore written from the specification.  Floating-point
quantities are idealised as rationals, so NaN and infinities are outside the model. -/

/-- Modelled from the spec: `EyeID` (Vuforia/EyeID.h is not among the sources); the
specification's reading field "which eye (LEFT or RIGHT)". -/
inductive EyeID where
  | LEFT
  | RIGHT
  deriving DecidableEq, Repr

/-- Modelled from the spec: `Matrix34F` (Vuforia/Vuforia.h is not among the sources), a
3x4 matrix stored as twelve entries. -/
structure Matrix34F where
  data : Fin 12 → ℚ

/-- Modelled from the spec: `EyewearCalibrationReading`
(Vuforia/EyewearCalibrationReading.h is not among the sources), following the
specification's CalibrationReading: eye, target pose, shape scale and an optional
shape offset. -/
structure EyewearCalibrationReading where
  eye : EyeID
  targetPose : Matrix34F
  shapeScale : ℚ
  shapeOffset : Option (ℚ × ℚ)

/-- Modelled from the spec: the specification's EyeCalibration, the pair of matrices
that `getProjectionMatrix` writes to `cameraToEyePose` and `eyeProjection`. -/
structure EyeCalibration where
  cameraToEyePose : Matrix34F
  eyeProjection : Matrix34F

/-- Modelled from the spec: the fixed configuration of a CalibrationSession.  The
surface dimensions are `size_t` in the header, the target dimensions `float`. -/
structure SessionConfig where
  surfaceWidth : Nat
  surfaceHeight : Nat
  targetWidth : ℚ
  targetHeight : ℚ

/-- Modelled from the spec: the session state machine `UNINITIALIZED → READY`; the
class has no data members in the header. -/
inductive SessionState where
  | UNINITIALIZED
  | READY (cfg : SessionConfig)

/-- Modelled from the spec: the error taxonomy of the specification's section 7.  The
header reports only `bool`; see `succeeded`. -/
inductive CalibrationError where
  | NotInitialized
  | InvalidConfiguration
  | InsufficientData
  | IllConditioned
  | SolverDivergence
  deriving DecidableEq, Repr

/-- Modelled from the spec: what the specification leaves to the implementation and to
the device, taken as parameters: the default (manufacturer) calibration of each eye,
the numeric single-eye solver of section 4.1 run on an initialised session (including
its own checks for too few or degenerate readings), and the consistency policy of
section 4.2 that grades two successful fits. -/
structure SolverPolicy where
  defaultCalibration : EyeID → EyeCalibration
  solve : SessionConfig → List EyewearCalibrationReading →
    Except CalibrationError EyeCalibration
  consistency : List EyewearCalibrationReading → List EyewearCalibrationReading →
    EyeCalibration → EyeCalibration → CONSISTENCY

/-- Modelled from the spec: `init` (pure virtual in the header).  "Fails if any
dimension is non-positive or the surface is degenerate (zero area)"; on success the
session becomes READY with the dimensions stored.  The specification has `init`
succeed once and the dimensions fixed for the session, so a call on a READY session
fails and changes nothing.  The result is the returned `bool` and the state after the
call. -/
def init (s : SessionState) (surfaceWidth surfaceHeight : Nat)
    (targetWidth targetHeight : ℚ) : Bool × SessionState :=
  match s with
  | .READY cfg => (false, .READY cfg)
  | .UNINITIALIZED =>
    if surfaceWidth ≤ 0 ∨ surfaceHeight ≤ 0 ∨ targetWidth ≤ 0 ∨ targetHeight ≤ 0
        ∨ surfaceWidth * surfaceHeight = 0 then
      (false, .UNINITIALIZED)
    else
      (true, .READY ⟨surfaceWidth, surfaceHeight, targetWidth, targetHeight⟩)

/-- Modelled from the spec: `getProjectionMatrix` (pure virtual in the header).  A call
before a successful `init` fails with NotInitialized; on a READY session the result is
that of the solver on the session configuration and the readings. -/
def getProjectionMatrix (P : SolverPolicy) (s : SessionState)
    (reading : List EyewearCalibrationReading) :
    Except CalibrationError EyeCalibration :=
  match s with
  | .UNINITIALIZED => .error .NotInitialized
  | .READY cfg => P.solve cfg reading

/-- The `bool` that the header's `getProjectionMatrix` returns: true exactly when the
fit produced matrices. -/
def succeeded (r : Except CalibrationError EyeCalibration) : Bool :=
  match r with
  | .ok _ => true
  | .error _ => false

/-- Modelled from the spec: the result of `getProjectionMatrices`, the returned grade
and the four output matrices, grouped per eye. -/
structure StereoResult where
  grade : CONSISTENCY
  left : EyeCalibration
  right : EyeCalibration

/-- Modelled from the spec: "returns NONE plus default matrices". -/
def defaultResult (P : SolverPolicy) : StereoResult :=
  ⟨.NONE, P.defaultCalibration .LEFT, P.defaultCalibration .RIGHT⟩

/-- Modelled from the spec: `getProjectionMatrices` (pure virtual in the header).  With
zero readings for either eye no fit is attempted and the result is NONE with the
default matrices; otherwise the single-eye fit runs on each eye, a failure of either
gives NONE with the default matrices, and two successful fits are graded by the
consistency policy. -/
def getProjectionMatrices (P : SolverPolicy) (s : SessionState)
    (leftReading rightReading : List EyewearCalibrationReading) : StereoResult :=
  if leftReading.isEmpty || rightReading.isEmpty then
    defaultResult P
  else
    match getProjectionMatrix P s leftReading, getProjectionMatrix P s rightReading with
    | .ok l, .ok r => ⟨P.consistency leftReading rightReading l r, l, r⟩
    | _, _ => defaultResult P

/-! ### Concrete data used to instantiate the theorems -/

/-- A matrix with the same entry everywhere. -/
def constMatrix (q : ℚ) : Matrix34F :=
  ⟨fun _ => q⟩

/-- A sample policy: default calibration of zeros, a solver that always succeeds with a
matrix of ones, and a consistency policy that always answers GOOD. -/
def samplePolicy : SolverPolicy :=
  ⟨fun _ => ⟨constMatrix 0, constMatrix 0⟩,
   fun _ _ => .ok ⟨constMatrix 1, constMatrix 1⟩,
   fun _ _ _ _ => .GOOD⟩

/-- A sample reading for the given eye. -/
def sampleReading (e : EyeID) : EyewearCalibrationReading :=
  ⟨e, constMatrix 1, 1 / 2, none⟩

/-! ### Theorems about the enumeration -/

/-- Claim C1: comparing any two of the five grades by enumerator value gives exactly
the specification's order NONE < VERY_BAD < BAD < OK < GOOD; two grades with the same
value are the same grade, and any two grades are comparable. -/
theorem consistency_value_order (a b : CONSISTENCY)
    (ha : a ∈ specGrades) (hb : b ∈ specGrades) :
    (a.ltByValue b = true ↔ specLt a b) ∧ (a.value = b.value ↔ a = b) ∧
      (a.ltByValue b = true ∨ a = b ∨ b.ltByValue a = true) := by
  cases a <;> cases b <;> simp [specGrades] at ha hb <;> decide

/-- Witness for C1 at the grades BAD and OK. -/
theorem consistency_value_order_witness :
    (CONSISTENCY.BAD.ltByValue CONSISTENCY.OK = true ↔
        specLt CONSISTENCY.BAD CONSISTENCY.OK) ∧
      (CONSISTENCY.BAD.value = CONSISTENCY.OK.value ↔
        CONSISTENCY.BAD = CONSISTENCY.OK) ∧
      (CONSISTENCY.BAD.ltByValue CONSISTENCY.OK = true ∨
        CONSISTENCY.BAD = CONSISTENCY.OK ∨
        CONSISTENCY.OK.ltByValue CONSISTENCY.BAD = true) :=
  consistency_value_order CONSISTENCY.BAD CONSISTENCY.OK (by decide) (by decide)

/-- Claim C2, as stated, fails: `CONSISTENCY_LEN` is an enumerator of the type and it is
none of NONE, VERY_BAD, BAD, OK, GOOD. -/
theorem consistency_len_is_sixth_enumerator :
    CONSISTENCY.CONSISTENCY_LEN ∈ CONSISTENCY.enumerators ∧
      CONSISTENCY.CONSISTENCY_LEN ∉ specGrades ∧
      ¬ (∀ c : CONSISTENCY, c ∈ specGrades) := by
  refine ⟨by decide, by decide, fun h => ?_⟩
  exact absurd (h CONSISTENCY.CONSISTENCY_LEN) (by decide)

/-- Claim C2, amended: the type has six enumerators, the five grades and
`CONSISTENCY_LEN`; every enumerator is a grade or `CONSISTENCY_LEN`, never both, and
the grades are exactly the enumerators whose value is below that of
`CONSISTENCY_LEN`. -/
theorem consistency_enumerators_exhaustive (c : CONSISTENCY) :
    c ∈ CONSISTENCY.enumerators ∧
      CONSISTENCY.enumerators = specGrades ++ [CONSISTENCY.CONSISTENCY_LEN] ∧
      (c ∈ specGrades ∨ c = CONSISTENCY.CONSISTENCY_LEN) ∧
      ¬ (c ∈ specGrades ∧ c = CONSISTENCY.CONSISTENCY_LEN) ∧
      (c ∈ specGrades ↔ c.value < CONSISTENCY.CONSISTENCY_LEN.value) := by
  cases c <;> decide

/-- Claim C10: the grade values are the contiguous integers 0, 1, 2, 3, 4 in the order
NONE, VERY_BAD, BAD, OK, GOOD; `CONSISTENCY_LEN` is 5, the number of grades; every grade
value lies in `0 ≤ g < CONSISTENCY_LEN`, and a table with `CONSISTENCY_LEN` entries has
an entry at every grade. -/
theorem grade_values_contiguous :
    specGrades.map CONSISTENCY.value = [0, 1, 2, 3, 4] ∧
      CONSISTENCY.CONSISTENCY_LEN.value = 5 ∧
      (specGrades.length : Int) = CONSISTENCY.CONSISTENCY_LEN.value ∧
      (∀ g ∈ specGrades, 0 ≤ g.value ∧ g.value < CONSISTENCY.CONSISTENCY_LEN.value) ∧
      (∀ (α : Type) (table : List α),
        (table.length : Int) = CONSISTENCY.CONSISTENCY_LEN.value →
        ∀ g ∈ specGrades, ∃ x, tableLookup table g = some x ∧
          table.get? (specRank g) = some x) := by
  refine ⟨by decide, by decide, by decide, by decide, ?_⟩
  intro α table hlen g hg
  have hlen5 : table.length = 5 := by
    have h5 : (table.length : Int) = 5 := hlen
    exact_mod_cast h5
  match table, hlen5 with
  | [x0, x1, x2, x3, x4], _ =>
    cases g <;> simp [specGrades] at hg <;>
      simp [tableLookup, CONSISTENCY.value, specRank, specGrades]

/-- Witness for C10: a five-entry table looked up at GOOD. -/
theorem grade_values_contiguous_witness :
    ∃ x, tableLookup [10, 20, 30, 40, 50] CONSISTENCY.GOOD = some x ∧
      [10, 20, 30, 40, 50].get? (specRank CONSISTENCY.GOOD) = some x :=
  grade_values_contiguous.2.2.2.2 Nat [10, 20, 30, 40, 50] (by decide)
    CONSISTENCY.GOOD (by decide)

/-! ### Theorems about the calibrator contract -/

/-- When `init` returns false, the session state after the call is the state before
it. -/
theorem init_false_unchanged (s : SessionState) (surfaceWidth surfaceHeight : Nat)
    (targetWidth targetHeight : ℚ)
    (h : (init s surfaceWidth surfaceHeight targetWidth targetHeight).1 = false) :
    (init s surfaceWidth surfaceHeight targetWidth targetHeight).2 = s := by
  cases s with
  | READY cfg => rfl
  | UNINITIALIZED =>
    unfold init at h ⊢
    by_cases hbad : surfaceWidth ≤ 0 ∨ surfaceHeight ≤ 0 ∨ targetWidth ≤ 0
        ∨ targetHeight ≤ 0 ∨ surfaceWidth * surfaceHeight = 0
    · simp only [if_pos hbad]
    · simp only [if_neg hbad] at h
      exact absurd h (by decide)

/-- Claim C3: when at least one eye has zero readings, and also when the calibrator has
not been initialised, `getProjectionMatrices` returns the grade NONE and the outputs of
both eyes are the default calibration, whatever the solver and the consistency policy
would have answered. -/
theorem stereo_none_and_defaults (P : SolverPolicy) (s : SessionState)
    (leftReading rightReading : List EyewearCalibrationReading)
    (h : leftReading = [] ∨ rightReading = [] ∨ s = SessionState.UNINITIALIZED) :
    (getProjectionMatrices P s leftReading rightReading).grade = CONSISTENCY.NONE ∧
      (getProjectionMatrices P s leftReading rightReading).left
        = P.defaultCalibration EyeID.LEFT ∧
      (getProjectionMatrices P s leftReading rightReading).right
        = P.defaultCalibration EyeID.RIGHT := by
  rcases h with h | h | h
  · subst h
    simp [getProjectionMatrices, defaultResult]
  · subst h
    simp [getProjectionMatrices, defaultResult]
  · subst h
    unfold getProjectionMatrices
    split
    · simp [defaultResult]
    · simp [getProjectionMatrix, defaultResult]

/-- Witness for C3: an initialised session, no reading for the left eye and one for the
right eye, under a policy whose solver succeeds and whose consistency policy says
GOOD. -/
theorem stereo_none_and_defaults_witness :
    (getProjectionMatrices samplePolicy
        (SessionState.READY ⟨1920, 1080, 80, 50⟩) [] [sampleReading EyeID.RIGHT]).grade
        = CONSISTENCY.NONE ∧
      (getProjectionMatrices samplePolicy
        (SessionState.READY ⟨1920, 1080, 80, 50⟩) [] [sampleReading EyeID.RIGHT]).left
        = samplePolicy.defaultCalibration EyeID.LEFT ∧
      (getProjectionMatrices samplePolicy
        (SessionState.READY ⟨1920, 1080, 80, 50⟩) [] [sampleReading EyeID.RIGHT]).right
        = samplePolicy.defaultCalibration EyeID.RIGHT :=
  stereo_none_and_defaults samplePolicy (SessionState.READY ⟨1920, 1080, 80, 50⟩) []
    [sampleReading EyeID.RIGHT] (Or.inl rfl)

/-- Claim C4: on an uninitialised session `init` returns true exactly when all four
dimensions are positive; when any dimension is non-positive (so also for a zero-area
surface) it returns false and the session stays UNINITIALIZED; and whenever `init`
returns false the session state is the one before the call. -/
theorem init_contract (surfaceWidth surfaceHeight : Nat) (targetWidth targetHeight : ℚ) :
    ((init SessionState.UNINITIALIZED surfaceWidth surfaceHeight
          targetWidth targetHeight).1 = true ↔
        (0 < surfaceWidth ∧ 0 < surfaceHeight ∧ 0 < targetWidth ∧ 0 < targetHeight)) ∧
      ((surfaceWidth ≤ 0 ∨ surfaceHeight ≤ 0 ∨ targetWidth ≤ 0 ∨ targetHeight ≤ 0
          ∨ surfaceWidth * surfaceHeight = 0) →
        init SessionState.UNINITIALIZED surfaceWidth surfaceHeight
          targetWidth targetHeight = (false, SessionState.UNINITIALIZED)) ∧
      ((0 < surfaceWidth ∧ 0 < surfaceHeight ∧ 0 < targetWidth ∧ 0 < targetHeight) →
        init SessionState.UNINITIALIZED surfaceWidth surfaceHeight
          targetWidth targetHeight
          = (true, SessionState.READY
              ⟨surfaceWidth, surfaceHeight, targetWidth, targetHeight⟩)) ∧
      (∀ s : SessionState,
        (init s surfaceWidth surfaceHeight targetWidth targetHeight).1 = false →
        (init s surfaceWidth surfaceHeight targetWidth targetHeight).2 = s) := by
  have hzero : surfaceWidth * surfaceHeight = 0 →
      surfaceWidth ≤ 0 ∨ surfaceHeight ≤ 0 := by
    intro h
    rcases Nat.mul_eq_zero.mp h with h0 | h0
    · exact Or.inl (Nat.le_of_eq h0)
    · exact Or.inr (Nat.le_of_eq h0)
  refine ⟨?_, ?_, ?_, ?_⟩
  · unfold init
    constructor
    · intro h
      by_contra hneg
      have hbad : surfaceWidth ≤ 0 ∨ surfaceHeight ≤ 0 ∨ targetWidth ≤ 0
          ∨ targetHeight ≤ 0 ∨ surfaceWidth * surfaceHeight = 0 := by
        by_contra hgood
        apply hneg
        push_neg at hgood
        exact ⟨hgood.1, hgood.2.1, hgood.2.2.1, hgood.2.2.2.1⟩
      simp only [if_pos hbad] at h
      exact Bool.false_ne_true h
    · rintro ⟨h1, h2, h3, h4⟩
      have hgood : ¬ (surfaceWidth ≤ 0 ∨ surfaceHeight ≤ 0 ∨ targetWidth ≤ 0
          ∨ targetHeight ≤ 0 ∨ surfaceWidth * surfaceHeight = 0) := by
        rintro (h | h | h | h | h)
        · omega
        · omega
        · exact absurd h (not_le.mpr h3)
        · exact absurd h (not_le.mpr h4)
        · rcases hzero h with h0 | h0 <;> omega
      simp only [if_neg hgood]
  · intro hbad
    unfold init
    simp only [if_pos hbad]
  · rintro ⟨h1, h2, h3, h4⟩
    have hgood : ¬ (surfaceWidth ≤ 0 ∨ surfaceHeight ≤ 0 ∨ targetWidth ≤ 0
        ∨ targetHeight ≤ 0 ∨ surfaceWidth * surfaceHeight = 0) := by
      rintro (h | h | h | h | h)
      · omega
      · omega
      · exact absurd h (not_le.mpr h3)
      · exact absurd h (not_le.mpr h4)
      · rcases hzero h with h0 | h0 <;> omega
    unfold init
    simp only [if_neg hgood]
  · intro s h
    exact init_false_unchanged s surfaceWidth surfaceHeight targetWidth targetHeight h

/-- Witness for C4: a zero-width surface is refused and the session stays
UNINITIALIZED; the dimensions 1920 x 1080 with an 80 x 50 target are accepted. -/
theorem init_contract_witness :
    init SessionState.UNINITIALIZED 0 1080 80 50 = (false, SessionState.UNINITIALIZED) ∧
      init SessionState.UNINITIALIZED 1920 1080 80 50
        = (true, SessionState.READY ⟨1920, 1080, 80, 50⟩) :=
  ⟨(init_contract 0 1080 80 50).2.1 (Or.inl (Nat.le_refl 0)),
   (init_contract 1920 1080 80 50).2.2.1 ⟨by norm_num, by norm_num, by norm_num, by norm_num⟩⟩

/-- Claim C5: for every non-empty reading sequence, `getProjectionMatrix` on a session
that is UNINITIALIZED, in particular on the session left by an `init` that returned
false, fails with NotInitialized (the returned `bool` is false) whatever the solver
would compute.  The model answers the same for the empty sequence, so the proof does
not use non-emptiness. -/
theorem fit_before_init_fails (P : SolverPolicy) (surfaceWidth surfaceHeight : Nat)
    (targetWidth targetHeight : ℚ) (reading : List EyewearCalibrationReading)
    (_hne : reading ≠ []) :
    getProjectionMatrix P SessionState.UNINITIALIZED reading
        = Except.error CalibrationError.NotInitialized ∧
      succeeded (getProjectionMatrix P SessionState.UNINITIALIZED reading) = false ∧
      ((init SessionState.UNINITIALIZED surfaceWidth surfaceHeight
          targetWidth targetHeight).1 = false →
        getProjectionMatrix P
            (init SessionState.UNINITIALIZED surfaceWidth surfaceHeight
              targetWidth targetHeight).2 reading
          = Except.error CalibrationError.NotInitialized) := by
  refine ⟨rfl, rfl, ?_⟩
  intro hfail
  rw [init_false_unchanged SessionState.UNINITIALIZED surfaceWidth surfaceHeight
    targetWidth targetHeight hfail]
  rfl

/-- Witness for C5: after `init` refused a zero-width surface, a fit on one left-eye
reading fails with NotInitialized although the sample solver always succeeds. -/
theorem fit_before_init_fails_witness :
    getProjectionMatrix samplePolicy SessionState.UNINITIALIZED
        [sampleReading EyeID.LEFT]
        = Except.error CalibrationError.NotInitialized ∧
      succeeded (getProjectionMatrix samplePolicy SessionState.UNINITIALIZED
        [sampleReading EyeID.LEFT]) = false ∧
      ((init SessionState.UNINITIALIZED 0 1080 80 50).1 = false →
        getProjectionMatrix samplePolicy
            (init SessionState.UNINITIALIZED 0 1080 80 50).2 [sampleReading EyeID.LEFT]
          = Except.error CalibrationError.NotInitialized) :=
  fit_before_init_fails samplePolicy 0 1080 80 50 [sampleReading EyeID.LEFT]
    (List.cons_ne_nil _ _)

end EyewearUserCalibrator
end Vuforia
